import Mathlib

/-!
Shallow embedding of the HORP-bot menu filtering engine (`src/engine.js`).

The JavaScript engine classifies menu items against a diner profile
(dietary preferences, avoided allergens, avoided ingredient flags,
cross-contact acceptance, tolerated ingredient flags) into three buckets:
`safe`, `canBeModified`, `filtered`.  A second pass (`filterByTolerance`)
re-examines filtered items against per-allergen tolerance declarations.

Every definition below is a direct translation of the corresponding
JavaScript function; the catalog (`menuData.items` in the source, loaded
from `menu.json`) is passed explicitly as a `List MenuItem` parameter.
-/

set_option maxHeartbeats 1000000

/-- A menu-item component (`component` objects in `menu.json`):
a name, the allergens it contains, and the ingredient flags it carries.
`notes` is attached by `applyModification` on substitution. -/
structure Component where
  name : String
  contains_allergens : List String
  contains_ingredient_flags : List String
  notes : Option String := none
deriving DecidableEq, Repr

/-- The trigger condition of a modification (`mod.when` in the source). -/
structure ModWhen where
  avoid_allergens : List String
  avoid_ingredient_flags : List String
deriving DecidableEq, Repr

/-- A declared modification of a menu item (`remove` or `substitute`). -/
structure Modification where
  action : String
  target_component : String
  substitute_with : String := ""
  «when» : Option ModWhen := none
deriving DecidableEq, Repr

/-- A catalog menu item. -/
structure MenuItem where
  id : String
  name : String
  category : String
  components : List Component := []
  modifications : List Modification := []
  tags : List String := []
  cross_contact_risk : List String := []
deriving DecidableEq, Repr

/-- The per-item verdict record the engine pushes into a result bucket
(`itemStatus` in the source).  `modifications` is attached only in the
`canBeModified` branch; `tolerance_notes` / `toleranceAllowed` only when
the tolerance refiner promotes the item. -/
structure ItemStatus where
  id : String
  name : String
  category : String
  reasons : List String
  modifications : Option (List Modification) := none
  tolerance_notes : Option (List String) := none
  toleranceAllowed : Bool := false
deriving DecidableEq, Repr

/-- The three result buckets returned by a filtering pass. -/
structure Results where
  safe : List ItemStatus
  filtered : List ItemStatus
  canBeModified : List ItemStatus
deriving DecidableEq, Repr

/-- The result bucket an item is pushed into. -/
inductive Category where
  | safe
  | canBeModified
  | filtered
deriving DecidableEq, Repr

/-- `isRelatedToAllergen(flag, allergen)`: the fixed relation table between
allergens and their processed ingredient-flag forms. -/
def isRelatedToAllergen (flag allergen : String) : Bool :=
  let relatedFlags : List String :=
    if allergen = "sesame" then ["sesame_seed", "sesame_oil"]
    else if allergen = "peanut" then ["peanut_oil"]
    else if allergen = "gluten" then ["soy_sauce"]
    else if allergen = "shellfish" then ["oyster_sauce"]
    else []
  relatedFlags.contains flag

/-- `isAllergenTolerable(component, allergen, tolerateFlags)`: the allergen is
tolerable in this component iff the component carries at least one of the
user's tolerated flags that is a related form of the allergen. -/
def isAllergenTolerable (component : Component) (allergen : String)
    (tolerateFlags : List String) : Bool :=
  if tolerateFlags = [] then false
  else
    let componentFlags := component.contains_ingredient_flags
    let toleratedFormsOfAllergen :=
      tolerateFlags.filter (fun flag => isRelatedToAllergen flag allergen)
    toleratedFormsOfAllergen.any (fun toleratedFlag =>
      componentFlags.contains toleratedFlag)

/-- The avoided allergens declared on a component
(`forbiddenAllergens` in `checkCompliance`). -/
def forbiddenAllergensOf (allergies : List String) (c : Component) : List String :=
  c.contains_allergens.filter (fun allergen => allergies.contains allergen)

/-- The avoided allergens of a component the user tolerates
(`tolerableAllergens` in `checkCompliance`). -/
def tolerableAllergensOf (allergies tolerateFlags : List String)
    (c : Component) : List String :=
  (forbiddenAllergensOf allergies c).filter
    (fun allergen => isAllergenTolerable c allergen tolerateFlags)

/-- The avoided allergens of a component the user does not tolerate
(`intolerablea` in `checkCompliance`). -/
def intolerableOf (allergies tolerateFlags : List String)
    (c : Component) : List String :=
  (forbiddenAllergensOf allergies c).filter
    (fun a => !((tolerableAllergensOf allergies tolerateFlags c).contains a))

/-- The avoided ingredient flags declared on a component
(`forbiddenFlags` in `checkCompliance`). -/
def forbiddenFlagsOf (avoidIngredientFlags : List String)
    (c : Component) : List String :=
  c.contains_ingredient_flags.filter
    (fun flag => avoidIngredientFlags.contains flag)

/-- Rejection reason for intolerable allergens in a component. -/
def intolerableReason (c : Component) (xs : List String) : String :=
  "\"" ++ c.name ++ "\" contains intolerable allergen(s): " ++
    String.intercalate ", " xs

/-- Informational reason for tolerated allergen forms in a component. -/
def toleratedReason (c : Component) (xs : List String) : String :=
  "\"" ++ c.name ++ "\" contains tolerated form: " ++
    String.intercalate ", " xs

/-- Rejection reason for forbidden ingredient flags in a component. -/
def flagReason (c : Component) (xs : List String) : String :=
  "\"" ++ c.name ++ "\" contains ingredient flag(s): " ++
    String.intercalate ", " xs

/-- One iteration of the component loop of `checkCompliance`: the
accumulator carries `(hasIssue, reasons)`. -/
def complianceStep (allergies avoidIngredientFlags tolerateFlags : List String)
    (acc : Bool × List String) (component : Component) : Bool × List String :=
  let forbiddenAllergens := forbiddenAllergensOf allergies component
  let acc1 :=
    if forbiddenAllergens ≠ [] then
      let tolerableAllergens :=
        tolerableAllergensOf allergies tolerateFlags component
      let intolerablea := intolerableOf allergies tolerateFlags component
      if intolerablea ≠ [] then
        (true, acc.2 ++ [intolerableReason component intolerablea])
      else if tolerableAllergens ≠ [] then
        (acc.1, acc.2 ++ [toleratedReason component tolerableAllergens])
      else acc
    else acc
  let forbiddenFlags := forbiddenFlagsOf avoidIngredientFlags component
  if forbiddenFlags ≠ [] then
    (true, acc1.2 ++ [flagReason component forbiddenFlags])
  else acc1

/-- `checkCompliance(item, allergies, avoidIngredientFlags, crossContactOk,
tolerateFlags, itemStatus)`: returns the compliance boolean together with
the reasons it pushes onto `itemStatus.reasons`. -/
def checkCompliance (item : MenuItem)
    (allergies avoidIngredientFlags : List String) (crossContactOk : Bool)
    (tolerateFlags : List String) : Bool × List String :=
  if allergies = [] ∧ avoidIngredientFlags = [] then (true, [])
  else
    let res := item.components.foldl
      (complianceStep allergies avoidIngredientFlags tolerateFlags) (false, [])
    let res2 :=
      if ¬crossContactOk ∧ item.cross_contact_risk ≠ [] then
        let forbiddenRisks :=
          item.cross_contact_risk.filter (fun risk => allergies.contains risk)
        if forbiddenRisks ≠ [] then
          (true, res.2 ++ ["Cross-contact risk: " ++
            String.intercalate ", " forbiddenRisks])
        else res
      else res
    (!res2.1, res2.2)

/-- One iteration of the component loop of `checkComplianceOnComponents`
(identical to `complianceStep` except that no informational reason is
pushed for fully tolerated allergens). -/
def componentsStep (allergies avoidIngredientFlags tolerateFlags : List String)
    (acc : Bool × List String) (component : Component) : Bool × List String :=
  let forbiddenAllergens := forbiddenAllergensOf allergies component
  let acc1 :=
    if forbiddenAllergens ≠ [] then
      let intolerablea := intolerableOf allergies tolerateFlags component
      if intolerablea ≠ [] then
        (true, acc.2 ++ [intolerableReason component intolerablea])
      else acc
    else acc
  let forbiddenFlags := forbiddenFlagsOf avoidIngredientFlags component
  if forbiddenFlags ≠ [] then
    (true, acc1.2 ++ [flagReason component forbiddenFlags])
  else acc1

/-- `checkComplianceOnComponents(components, crossContactRisk, allergies,
avoidIngredientFlags, crossContactOk, tolerateFlags, itemStatus)`:
the re-check used after modifications are applied. -/
def checkComplianceOnComponents (components : List Component)
    (crossContactRisk : List String)
    (allergies avoidIngredientFlags : List String) (crossContactOk : Bool)
    (tolerateFlags : List String) : Bool × List String :=
  if allergies = [] ∧ avoidIngredientFlags = [] then (true, [])
  else
    let res := components.foldl
      (componentsStep allergies avoidIngredientFlags tolerateFlags) (false, [])
    let res2 :=
      if ¬crossContactOk ∧ crossContactRisk ≠ [] then
        let forbiddenRisks :=
          crossContactRisk.filter (fun risk => allergies.contains risk)
        if forbiddenRisks ≠ [] then
          (true, res.2 ++ ["Cross-contact risk: " ++
            String.intercalate ", " forbiddenRisks])
        else res
      else res
    (!res2.1, res2.2)

/-- The `for (const pref of dietaryPreferences)` loop of
`checkDietaryCompliance` (returns on the first failing preference). -/
def dietLoop (vegetarianItems veganItems : Bool) :
    List String → Bool × List String
  | [] => (true, [])
  | pref :: rest =>
    if pref = "vegetarian" ∧ ¬vegetarianItems then
      (false, ["Contains meat or animal products - not vegetarian"])
    else if pref = "vegan" ∧ ¬veganItems then
      (false, ["Contains dairy, eggs or animal products - not vegan"])
    else dietLoop vegetarianItems veganItems rest

/-- `checkDietaryCompliance(item, dietaryPreferences, itemStatus)`:
returns the dietary boolean together with the reasons it pushes. -/
def checkDietaryCompliance (item : MenuItem)
    (dietaryPreferences : List String) : Bool × List String :=
  if dietaryPreferences = [] then (true, [])
  else
    let vegetarianItems := item.tags.contains "vegetarian"
    let veganItems := item.tags.contains "vegan"
    dietLoop vegetarianItems veganItems dietaryPreferences

/-- The applicability test shared by `canModificationsMakeItemSafe` and
`getApplicableModifications` (their filter callbacks are identical in the
source): a modification is applicable when its `when` trigger's allergen
set intersects the avoided allergens, or its flag set intersects the
avoided ingredient flags. -/
def modIsApplicable (allergies avoidIngredientFlags : List String)
    (m : Modification) : Bool :=
  match m.when with
  | none => false
  | some w =>
    (!w.avoid_allergens.isEmpty &&
      w.avoid_allergens.any (fun allergen => allergies.contains allergen)) ||
    (!w.avoid_ingredient_flags.isEmpty &&
      w.avoid_ingredient_flags.any (fun flag =>
        avoidIngredientFlags.contains flag))

/-- `getApplicableModifications(item, allergies, avoidIngredientFlags)`. -/
def getApplicableModifications (item : MenuItem)
    (allergies avoidIngredientFlags : List String) : List Modification :=
  item.modifications.filter (modIsApplicable allergies avoidIngredientFlags)

/-- `applyModification(components, modification)`: `remove` deletes the
target component, `substitute` replaces it by a clean synthetic component. -/
def applyModification (components : List Component)
    (modification : Modification) : List Component :=
  if modification.action = "remove" then
    components.filter (fun comp => comp.name ≠ modification.target_component)
  else if modification.action = "substitute" then
    components.map (fun comp =>
      if comp.name = modification.target_component then
        { name := modification.target_component
          contains_allergens := []
          contains_ingredient_flags := []
          notes := some ("substituted with " ++ modification.substitute_with) }
      else comp)
  else components

/-- `canModificationsMakeItemSafe(item, allergies, avoidIngredientFlags,
crossContactOk, tolerateFlags)`: applies all applicable modifications
cumulatively to a copy of the component list and re-checks compliance. -/
def canModificationsMakeItemSafe (item : MenuItem)
    (allergies avoidIngredientFlags : List String) (crossContactOk : Bool)
    (tolerateFlags : List String) : Bool :=
  if item.modifications = [] then false
  else
    let applicableMods :=
      item.modifications.filter (modIsApplicable allergies avoidIngredientFlags)
    if applicableMods = [] then false
    else
      let effectiveComponents :=
        applicableMods.foldl applyModification item.components
      (checkComplianceOnComponents effectiveComponents item.cross_contact_risk
        allergies avoidIngredientFlags crossContactOk tolerateFlags).1

/-- The per-item body of the `forEach` loop in
`filterByDietaryAndAllergies`: computes the verdict record and the bucket
the item is pushed into. -/
def evalItem (dietaryPreferences allergies avoidIngredientFlags : List String)
    (crossContactOk : Bool) (tolerateFlags : List String)
    (item : MenuItem) : Category × ItemStatus :=
  let dietary := checkDietaryCompliance item dietaryPreferences
  let compliance := checkCompliance item allergies avoidIngredientFlags
    crossContactOk tolerateFlags
  let itemStatus : ItemStatus :=
    { id := item.id, name := item.name, category := item.category
      reasons := dietary.2 ++ compliance.2 }
  let canBeModifiedToSafe :=
    if ¬compliance.1 ∧ item.modifications ≠ [] then
      canModificationsMakeItemSafe item allergies avoidIngredientFlags
        crossContactOk tolerateFlags
    else false
  if dietary.1 ∧ compliance.1 then (Category.safe, itemStatus)
  else if canBeModifiedToSafe then
    let applicableMods :=
      getApplicableModifications item allergies avoidIngredientFlags
    (Category.canBeModified,
      { itemStatus with modifications := some applicableMods })
  else (Category.filtered, itemStatus)

/-- The bucket-push step of the `forEach` loop. -/
def categorizeStep (dietaryPreferences allergies avoidIngredientFlags :
    List String) (crossContactOk : Bool) (tolerateFlags : List String)
    (r : Results) (item : MenuItem) : Results :=
  match evalItem dietaryPreferences allergies avoidIngredientFlags
      crossContactOk tolerateFlags item with
  | (Category.safe, v) => { r with safe := r.safe ++ [v] }
  | (Category.canBeModified, v) =>
      { r with canBeModified := r.canBeModified ++ [v] }
  | (Category.filtered, v) => { r with filtered := r.filtered ++ [v] }

/-- `filterByDietaryAndAllergies(dietaryPreferences, allergies,
avoidIngredientFlags, crossContactOk, tolerateFlags)`, with the catalog
(`menuData.items`) passed explicitly. -/
def filterByDietaryAndAllergies (items : List MenuItem)
    (dietaryPreferences allergies avoidIngredientFlags : List String)
    (crossContactOk : Bool) (tolerateFlags : List String) : Results :=
  items.foldl
    (categorizeStep dietaryPreferences allergies avoidIngredientFlags
      crossContactOk tolerateFlags)
    { safe := [], filtered := [], canBeModified := [] }

/-- A per-allergen tolerance declaration entry
(e.g. `{ canUseSoySauce: true }` in the source). -/
structure ToleranceEntry where
  canUseSoySauce : Bool := false
  canUseOysterSauce : Bool := false
  canUsePeanutOil : Bool := false
  canUseSesameOil : Bool := false
deriving DecidableEq, Repr

/-- The `toleranceMapping` table of `filterByTolerance`: for an allergen,
the tolerable processed-form flag and the declaration key consulted. -/
def toleranceMapping (allergen : String) : Option (String × String) :=
  if allergen = "gluten" then some ("soy_sauce", "canUseSoySauce")
  else if allergen = "shellfish" then some ("oyster_sauce", "canUseOysterSauce")
  else if allergen = "peanut" then some ("peanut_oil", "canUsePeanutOil")
  else if allergen = "sesame" then some ("sesame_oil", "canUseSesameOil")
  else none

/-- Dynamic key access `tolerance[mapping.key]` on a tolerance entry. -/
def toleranceField (t : ToleranceEntry) (key : String) : Bool :=
  if key = "canUseSoySauce" then t.canUseSoySauce
  else if key = "canUseOysterSauce" then t.canUseOysterSauce
  else if key = "canUsePeanutOil" then t.canUsePeanutOil
  else if key = "canUseSesameOil" then t.canUseSesameOil
  else false

/-- `checkIfOnlyTolerablyPresent(item, allergen, tolerableFlag)`: every
component declaring the allergen must carry the tolerable flag and no
other related form of the allergen. -/
def checkIfOnlyTolerablyPresent (item : MenuItem)
    (allergen tolerableFlag : String) : Bool :=
  item.components.all (fun component =>
    let hasAllergen := component.contains_allergens.contains allergen
    if hasAllergen then
      let flags := component.contains_ingredient_flags
      let hasTolerablyForm := flags.contains tolerableFlag
      let hasOtherForms :=
        !(flags.filter (fun f =>
          (f != tolerableFlag) && isRelatedToAllergen f allergen)).isEmpty
      !hasOtherForms && hasTolerablyForm
    else true)

/-- The `for (const allergen of allergies)` loop of `filterByTolerance`:
returns `(isSafeWithTolerance, toleranceReasoning)`; the loop breaks (with
`isSafeWithTolerance = false`) at the first affirmatively tolerated
allergen that is not only tolerably present. -/
def toleranceScan (originalItem : MenuItem)
    (tolerances : List (String × ToleranceEntry)) :
    List String → Bool × List String
  | [] => (true, [])
  | allergen :: rest =>
    match toleranceMapping allergen with
    | none => toleranceScan originalItem tolerances rest
    | some (flag, key) =>
      match tolerances.lookup allergen with
      | none => toleranceScan originalItem tolerances rest
      | some tolerance =>
        if ¬toleranceField tolerance key then
          toleranceScan originalItem tolerances rest
        else if ¬checkIfOnlyTolerablyPresent originalItem allergen flag then
          (false, [])
        else
          let res := toleranceScan originalItem tolerances rest
          (res.1, ("Can tolerate " ++ allergen ++ " in form: " ++ flag) :: res.2)

/-- The body of the `forEach` over `layer1Results.filtered` in
`filterByTolerance`: `some` promoted verdict when the item is moved to
`safe`, `none` when it stays filtered. -/
def toleranceRefineOne (items : List MenuItem) (allergies : List String)
    (tolerances : List (String × ToleranceEntry))
    (filteredItem : ItemStatus) : Option ItemStatus :=
  match items.find? (fun item => item.id == filteredItem.id) with
  | none => none
  | some originalItem =>
    let res := toleranceScan originalItem tolerances allergies
    if res.1 && !res.2.isEmpty then
      some { filteredItem with
        tolerance_notes := some res.2, toleranceAllowed := true }
    else none

/-- The bucket-push step of the `forEach` over `layer1Results.filtered`
in `filterByTolerance`. -/
def toleranceStep (items : List MenuItem) (allergies : List String)
    (tolerances : List (String × ToleranceEntry)) (acc : Results)
    (filteredItem : ItemStatus) : Results :=
  match toleranceRefineOne items allergies tolerances filteredItem with
  | some tolerantItem => { acc with safe := acc.safe ++ [tolerantItem] }
  | none => { acc with filtered := acc.filtered ++ [filteredItem] }

/-- `filterByTolerance(layer1Results, allergies, tolerances)`, with the
catalog (`menuData.items`) passed explicitly.  Safe and canBeModified
buckets are carried over; each filtered item is re-examined. -/
def filterByTolerance (items : List MenuItem) (layer1Results : Results)
    (allergies : List String)
    (tolerances : List (String × ToleranceEntry)) : Results :=
  if tolerances = [] then layer1Results
  else
    layer1Results.filtered.foldl
      (toleranceStep items allergies tolerances)
      { safe := layer1Results.safe, filtered := []
        canBeModified := layer1Results.canBeModified }

/-- The table profile consumed by `runMultiAllergyReport` (missing fields
default exactly as the source's destructuring defaults do). -/
structure TableProfile where
  dietaryPreferences : List String := []
  avoidAllergens : List String := []
  avoidIngredientFlags : List String := []
  tolerateFlags : List String := []
  crossContactOk : Bool := false
deriving DecidableEq, Repr

/-- The report value returned by `runMultiAllergyReport`:
`{ safeForAll, safeByAllergy }` (the JS object keyed by allergen is
modelled as an association list in key-insertion order). -/
structure Report where
  safeForAll : List ItemStatus
  safeByAllergy : List (String × List ItemStatus)
deriving DecidableEq, Repr

/-- `runMultiAllergyReport(tableProfile)`, with the catalog passed
explicitly: one combined pass plus one single-allergen pass per avoided
allergen. -/
def runMultiAllergyReport (items : List MenuItem)
    (tableProfile : TableProfile) : Report :=
  let combinedResults := filterByDietaryAndAllergies items
    tableProfile.dietaryPreferences tableProfile.avoidAllergens
    tableProfile.avoidIngredientFlags tableProfile.crossContactOk
    tableProfile.tolerateFlags
  { safeForAll := combinedResults.safe
    safeByAllergy := tableProfile.avoidAllergens.map (fun allergen =>
      (allergen,
        (filterByDietaryAndAllergies items tableProfile.dietaryPreferences
          [allergen] tableProfile.avoidIngredientFlags
          tableProfile.crossContactOk tableProfile.tolerateFlags).safe)) }

/-! ## Derived definitions used in the statements and proofs -/

/-- Whether a component triggers a rejection in the component loop of the
compliance checks: it declares an intolerable avoided allergen or an
avoided ingredient flag. -/
def componentHasIssue (allergies avoidIngredientFlags tolerateFlags :
    List String) (c : Component) : Bool :=
  decide (intolerableOf allergies tolerateFlags c ≠ []) ||
  decide (forbiddenFlagsOf avoidIngredientFlags c ≠ [])

/-- The reasons one component contributes in `checkCompliance`. -/
def componentReasonsFull (allergies avoidIngredientFlags tolerateFlags :
    List String) (c : Component) : List String :=
  (if forbiddenAllergensOf allergies c ≠ [] then
    (if intolerableOf allergies tolerateFlags c ≠ [] then
      [intolerableReason c (intolerableOf allergies tolerateFlags c)]
    else if tolerableAllergensOf allergies tolerateFlags c ≠ [] then
      [toleratedReason c (tolerableAllergensOf allergies tolerateFlags c)]
    else [])
  else []) ++
  (if forbiddenFlagsOf avoidIngredientFlags c ≠ [] then
    [flagReason c (forbiddenFlagsOf avoidIngredientFlags c)]
  else [])

/-- The reasons one component contributes in `checkComplianceOnComponents`
(no informational tolerated-form reason). -/
def componentReasonsMod (allergies avoidIngredientFlags tolerateFlags :
    List String) (c : Component) : List String :=
  (if forbiddenAllergensOf allergies c ≠ [] then
    (if intolerableOf allergies tolerateFlags c ≠ [] then
      [intolerableReason c (intolerableOf allergies tolerateFlags c)]
    else [])
  else []) ++
  (if forbiddenFlagsOf avoidIngredientFlags c ≠ [] then
    [flagReason c (forbiddenFlagsOf avoidIngredientFlags c)]
  else [])

/-- The tolerable processed-form flag of an allergen when the tolerance
declaration affirmatively covers it: the allergen has an entry in
`toleranceMapping`, the declaration has an entry for the allergen, and the
mapped key is set.  This packages the three `continue` guards of the
allergen loop in `filterByTolerance`. -/
def affirmativeFlag (tolerances : List (String × ToleranceEntry))
    (allergen : String) : Option String :=
  match toleranceMapping allergen with
  | none => none
  | some (flag, key) =>
    match tolerances.lookup allergen with
    | none => none
    | some t => if toleranceField t key then some flag else none

/-! ## Lemmas about the component loop -/

theorem intolerableOf_of_forbidden_nil {A T : List String} {c : Component}
    (h : forbiddenAllergensOf A c = []) : intolerableOf A T c = [] := by
  simp [intolerableOf, h]

theorem complianceStep_eq (A F T : List String) (acc : Bool × List String)
    (c : Component) :
    complianceStep A F T acc c =
      (acc.1 || componentHasIssue A F T c,
       acc.2 ++ componentReasonsFull A F T c) := by
  by_cases hF : forbiddenAllergensOf A c = []
  · have hI : intolerableOf A T c = [] := intolerableOf_of_forbidden_nil hF
    by_cases hFl : forbiddenFlagsOf F c = [] <;>
      simp [complianceStep, componentReasonsFull, componentHasIssue, hF, hI, hFl]
  · by_cases hI : intolerableOf A T c = []
    · by_cases hTl : tolerableAllergensOf A T c = [] <;>
      by_cases hFl : forbiddenFlagsOf F c = [] <;>
        simp [complianceStep, componentReasonsFull, componentHasIssue,
          hF, hI, hTl, hFl]
    · by_cases hFl : forbiddenFlagsOf F c = [] <;>
        simp [complianceStep, componentReasonsFull, componentHasIssue,
          hF, hI, hFl]

theorem componentsStep_eq (A F T : List String) (acc : Bool × List String)
    (c : Component) :
    componentsStep A F T acc c =
      (acc.1 || componentHasIssue A F T c,
       acc.2 ++ componentReasonsMod A F T c) := by
  by_cases hF : forbiddenAllergensOf A c = []
  · have hI : intolerableOf A T c = [] := intolerableOf_of_forbidden_nil hF
    by_cases hFl : forbiddenFlagsOf F c = [] <;>
      simp [componentsStep, componentReasonsMod, componentHasIssue, hF, hI, hFl]
  · by_cases hI : intolerableOf A T c = [] <;>
    by_cases hFl : forbiddenFlagsOf F c = [] <;>
      simp [componentsStep, componentReasonsMod, componentHasIssue,
        hF, hI, hFl]

theorem foldl_complianceStep (A F T : List String) (comps : List Component) :
    ∀ (b : Bool) (rs : List String),
    comps.foldl (complianceStep A F T) (b, rs) =
      (b || comps.any (componentHasIssue A F T),
       rs ++ (comps.map (componentReasonsFull A F T)).flatten) := by
  induction comps with
  | nil => intro b rs; simp
  | cons c cs ih =>
    intro b rs
    rw [List.foldl_cons, complianceStep_eq, ih]
    simp [Bool.or_assoc]

theorem foldl_componentsStep (A F T : List String) (comps : List Component) :
    ∀ (b : Bool) (rs : List String),
    comps.foldl (componentsStep A F T) (b, rs) =
      (b || comps.any (componentHasIssue A F T),
       rs ++ (comps.map (componentReasonsMod A F T)).flatten) := by
  induction comps with
  | nil => intro b rs; simp
  | cons c cs ih =>
    intro b rs
    rw [List.foldl_cons, componentsStep_eq, ih]
    simp [Bool.or_assoc]

/-! ## Characterizations of the compliance checks -/

theorem forbiddenAllergensOf_nil {c : Component} :
    forbiddenAllergensOf [] c = [] := by
  simp [forbiddenAllergensOf]

theorem forbiddenFlagsOf_nil {c : Component} : forbiddenFlagsOf [] c = [] := by
  simp [forbiddenFlagsOf]

theorem componentHasIssue_nil {T : List String} {c : Component} :
    componentHasIssue [] [] T c = false := by
  simp [componentHasIssue, intolerableOf_of_forbidden_nil forbiddenAllergensOf_nil,
    forbiddenFlagsOf_nil]

theorem checkCompliance_fst (item : MenuItem) (A F : List String) (cc : Bool)
    (T : List String) :
    (checkCompliance item A F cc T).1 = true ↔
      (∀ c ∈ item.components, componentHasIssue A F T c = false) ∧
      (cc = false →
        item.cross_contact_risk.filter (fun risk => A.contains risk) = []) := by
  by_cases h : A = [] ∧ F = []
  · obtain ⟨hA, hF⟩ := h
    subst hA; subst hF
    simp [checkCompliance, componentHasIssue_nil]
  · rw [checkCompliance, if_neg h, foldl_complianceStep]
    cases cc with
    | true => simp [List.any_eq_true, Bool.not_eq_true]
    | false =>
      by_cases hrisk : item.cross_contact_risk = []
      · simp [hrisk, List.any_eq_true, Bool.not_eq_true]
      · by_cases hfr : item.cross_contact_risk.filter
            (fun risk => A.contains risk) = []
        · have hfr' : ¬∃ x ∈ item.cross_contact_risk, x ∈ A := by
            rw [List.filter_eq_nil_iff] at hfr
            push_neg
            intro x hx
            simpa using hfr x hx
          simp [hrisk, hfr, List.any_eq_true, Bool.not_eq_true, hfr']
          intro _
          push_neg at hfr'
          exact hfr'
        · have hfr' : ∃ x ∈ item.cross_contact_risk, x ∈ A := by
            by_contra hno
            push_neg at hno
            exact hfr (List.filter_eq_nil_iff.mpr (by simpa using hno))
          simp [hrisk, List.any_eq_true, Bool.not_eq_true, hfr']

theorem checkComplianceOnComponents_fst (comps : List Component)
    (risk : List String) (A F : List String) (cc : Bool) (T : List String) :
    (checkComplianceOnComponents comps risk A F cc T).1 = true ↔
      (∀ c ∈ comps, componentHasIssue A F T c = false) ∧
      (cc = false → risk.filter (fun r => A.contains r) = []) := by
  by_cases h : A = [] ∧ F = []
  · obtain ⟨hA, hF⟩ := h
    subst hA; subst hF
    simp [checkComplianceOnComponents, componentHasIssue_nil]
  · rw [checkComplianceOnComponents, if_neg h, foldl_componentsStep]
    cases cc with
    | true => simp [List.any_eq_true, Bool.not_eq_true]
    | false =>
      by_cases hrisk : risk = []
      · simp [hrisk, List.any_eq_true, Bool.not_eq_true]
      · by_cases hfr : risk.filter (fun r => A.contains r) = []
        · have hfr' : ¬∃ x ∈ risk, x ∈ A := by
            rw [List.filter_eq_nil_iff] at hfr
            push_neg
            intro x hx
            simpa using hfr x hx
          simp [hrisk, hfr, List.any_eq_true, Bool.not_eq_true, hfr']
          intro _
          push_neg at hfr'
          exact hfr'
        · have hfr' : ∃ x ∈ risk, x ∈ A := by
            by_contra hno
            push_neg at hno
            exact hfr (List.filter_eq_nil_iff.mpr (by simpa using hno))
          simp [hrisk, List.any_eq_true, Bool.not_eq_true, hfr']

theorem checkCompliance_fst_eq (item : MenuItem) (A F : List String)
    (cc : Bool) (T : List String) :
    (checkCompliance item A F cc T).1 =
      (checkComplianceOnComponents item.components item.cross_contact_risk
        A F cc T).1 := by
  have h1 := checkCompliance_fst item A F cc T
  have h2 := checkComplianceOnComponents_fst item.components
    item.cross_contact_risk A F cc T
  have := h1.trans h2.symm
  cases hb : (checkCompliance item A F cc T).1 <;>
  cases hb2 : (checkComplianceOnComponents item.components
      item.cross_contact_risk A F cc T).1 <;>
  simp_all

theorem checkCompliance_snd (item : MenuItem) (A F : List String) (cc : Bool)
    (T : List String) (h : ¬(A = [] ∧ F = [])) :
    (checkCompliance item A F cc T).2 =
      (item.components.map (componentReasonsFull A F T)).flatten ++
      (if cc = false ∧
          item.cross_contact_risk.filter (fun r => A.contains r) ≠ [] then
        ["Cross-contact risk: " ++ String.intercalate ", "
          (item.cross_contact_risk.filter (fun r => A.contains r))]
      else []) := by
  rw [checkCompliance, if_neg h, foldl_complianceStep]
  cases cc with
  | true => simp
  | false =>
    by_cases hrisk : item.cross_contact_risk = []
    · simp [hrisk]
    · by_cases hex : ∃ x ∈ item.cross_contact_risk, x ∈ A <;>
        simp [hrisk, hex]

/-! ## Dietary check lemmas -/

theorem dietLoop_fst_true {v w : Bool} :
    ∀ {L : List String}, (dietLoop v w L).1 = true → dietLoop v w L = (true, []) := by
  intro L
  induction L with
  | nil => intro _; rfl
  | cons p rest ih =>
    intro h
    by_cases h1 : p = "vegetarian" ∧ ¬(v = true)
    · rw [dietLoop, if_pos h1] at h
      cases h
    · by_cases h2 : p = "vegan" ∧ ¬(w = true)
      · rw [dietLoop, if_neg h1, if_pos h2] at h
        cases h
      · rw [dietLoop, if_neg h1, if_neg h2] at h ⊢
        exact ih h

theorem checkDietaryCompliance_fst_true {item : MenuItem}
    {prefs : List String} (h : (checkDietaryCompliance item prefs).1 = true) :
    (checkDietaryCompliance item prefs).2 = [] := by
  by_cases hp : prefs = []
  · simp [checkDietaryCompliance, hp]
  · rw [checkDietaryCompliance, if_neg hp] at h ⊢
    rw [dietLoop_fst_true h]

theorem dietLoop_unknown {v w : Bool} :
    ∀ {L : List String}, "vegetarian" ∉ L → "vegan" ∉ L →
      dietLoop v w L = (true, []) := by
  intro L
  induction L with
  | nil => intro _ _; rfl
  | cons p rest ih =>
    intro h1 h2
    have hp1 : p ≠ "vegetarian" := fun hc => h1 (hc ▸ List.mem_cons_self p rest)
    have hp2 : p ≠ "vegan" := fun hc => h2 (hc ▸ List.mem_cons_self p rest)
    rw [dietLoop, if_neg (fun hc => hp1 hc.1), if_neg (fun hc => hp2 hc.1)]
    exact ih (fun hc => h1 (List.mem_cons_of_mem p hc))
      (fun hc => h2 (List.mem_cons_of_mem p hc))

/-! ## Bucket characterization of the first pass -/

theorem foldl_categorizeStep (P A F : List String) (cc : Bool)
    (T : List String) (items : List MenuItem) : ∀ r : Results,
    items.foldl (categorizeStep P A F cc T) r =
      { safe := r.safe ++
          (items.filter (fun i =>
            decide ((evalItem P A F cc T i).1 = Category.safe))).map
            (fun i => (evalItem P A F cc T i).2),
        filtered := r.filtered ++
          (items.filter (fun i =>
            decide ((evalItem P A F cc T i).1 = Category.filtered))).map
            (fun i => (evalItem P A F cc T i).2),
        canBeModified := r.canBeModified ++
          (items.filter (fun i =>
            decide ((evalItem P A F cc T i).1 = Category.canBeModified))).map
            (fun i => (evalItem P A F cc T i).2) } := by
  induction items with
  | nil => intro r; simp
  | cons i rest ih =>
    intro r
    rcases hev : evalItem P A F cc T i with ⟨cat, v⟩
    cases cat <;>
      rw [List.foldl_cons] <;>
      simp [categorizeStep, hev, ih, List.filter_cons]

theorem filterByDietaryAndAllergies_eq (items : List MenuItem)
    (P A F : List String) (cc : Bool) (T : List String) :
    filterByDietaryAndAllergies items P A F cc T =
      { safe := (items.filter (fun i =>
          decide ((evalItem P A F cc T i).1 = Category.safe))).map
          (fun i => (evalItem P A F cc T i).2),
        filtered := (items.filter (fun i =>
          decide ((evalItem P A F cc T i).1 = Category.filtered))).map
          (fun i => (evalItem P A F cc T i).2),
        canBeModified := (items.filter (fun i =>
          decide ((evalItem P A F cc T i).1 = Category.canBeModified))).map
          (fun i => (evalItem P A F cc T i).2) } := by
  rw [filterByDietaryAndAllergies, foldl_categorizeStep]
  rfl

theorem category_filter_length (P A F : List String) (cc : Bool)
    (T : List String) (items : List MenuItem) :
    (items.filter (fun i =>
      decide ((evalItem P A F cc T i).1 = Category.safe))).length +
    (items.filter (fun i =>
      decide ((evalItem P A F cc T i).1 = Category.canBeModified))).length +
    (items.filter (fun i =>
      decide ((evalItem P A F cc T i).1 = Category.filtered))).length =
    items.length := by
  induction items with
  | nil => rfl
  | cons i rest ih =>
    rcases hev : evalItem P A F cc T i with ⟨cat, v⟩
    cases cat <;> simp [List.filter_cons, hev] <;> omega

/-! ## Tolerance refiner lemmas -/

theorem foldl_toleranceStep (items : List MenuItem) (A : List String)
    (tol : List (String × ToleranceEntry)) (l : List ItemStatus) :
    ∀ acc : Results,
    l.foldl (toleranceStep items A tol) acc =
      { safe := acc.safe ++ l.filterMap (toleranceRefineOne items A tol),
        filtered := acc.filtered ++
          l.filter (fun v => (toleranceRefineOne items A tol v).isNone),
        canBeModified := acc.canBeModified } := by
  induction l with
  | nil => intro acc; simp
  | cons v rest ih =>
    intro acc
    rcases hv : toleranceRefineOne items A tol v with _ | v' <;>
      rw [List.foldl_cons] <;>
      simp [toleranceStep, hv, ih, List.filter_cons, List.filterMap_cons]

theorem filterByTolerance_eq (items : List MenuItem) (r1 : Results)
    (A : List String) (tol : List (String × ToleranceEntry)) :
    filterByTolerance items r1 A tol =
      if tol = [] then r1
      else
        { safe := r1.safe ++
            r1.filtered.filterMap (toleranceRefineOne items A tol),
          filtered := r1.filtered.filter
            (fun v => (toleranceRefineOne items A tol v).isNone),
          canBeModified := r1.canBeModified } := by
  by_cases h : tol = []
  · simp [filterByTolerance, h]
  · rw [filterByTolerance, if_neg h, if_neg h, foldl_toleranceStep]
    rfl

theorem filterMap_filter_length {α β : Type} (f : α → Option β) :
    ∀ l : List α,
    (l.filterMap f).length + (l.filter (fun a => (f a).isNone)).length =
      l.length := by
  intro l
  induction l with
  | nil => rfl
  | cons a rest ih =>
    rcases ha : f a with _ | b <;>
      simp [List.filterMap_cons, List.filter_cons, ha] <;> omega

theorem toleranceScan_fst (orig : MenuItem)
    (tol : List (String × ToleranceEntry)) :
    ∀ L : List String,
    (toleranceScan orig tol L).1 = L.all (fun a =>
      match affirmativeFlag tol a with
      | none => true
      | some flag => checkIfOnlyTolerablyPresent orig a flag) := by
  intro L
  induction L with
  | nil => rfl
  | cons a rest ih =>
    rcases hm : toleranceMapping a with _ | ⟨flag, key⟩
    · simp [toleranceScan, affirmativeFlag, hm, ih]
    · rcases hl : tol.lookup a with _ | t
      · simp [toleranceScan, affirmativeFlag, hm, hl, ih]
      · by_cases hk : toleranceField t key = true
        · by_cases hc : checkIfOnlyTolerablyPresent orig a flag = true
          · simp [toleranceScan, affirmativeFlag, hm, hl, hk, hc, ih]
          · simp [toleranceScan, affirmativeFlag, hm, hl, hk, hc]
        · have hk' : toleranceField t key = false := by
            revert hk; cases toleranceField t key <;> simp
          simp [toleranceScan, affirmativeFlag, hm, hl, hk', ih]

theorem toleranceScan_snd (orig : MenuItem)
    (tol : List (String × ToleranceEntry)) :
    ∀ L : List String, (toleranceScan orig tol L).1 = true →
    (toleranceScan orig tol L).2 = L.filterMap (fun a =>
      (affirmativeFlag tol a).map
        (fun flag => "Can tolerate " ++ a ++ " in form: " ++ flag)) := by
  intro L
  induction L with
  | nil => intro _; rfl
  | cons a rest ih =>
    intro h
    rcases hm : toleranceMapping a with _ | ⟨flag, key⟩
    · rw [toleranceScan] at h
      rw [hm] at h
      simp [toleranceScan, List.filterMap_cons, affirmativeFlag, hm, ih h]
    · rcases hl : tol.lookup a with _ | t
      · rw [toleranceScan] at h
        rw [hm, hl] at h
        simp [toleranceScan, List.filterMap_cons, affirmativeFlag, hm, hl, ih h]
      · by_cases hk : toleranceField t key = true
        · by_cases hc : checkIfOnlyTolerablyPresent orig a flag = true
          · rw [toleranceScan] at h
            rw [hm, hl] at h
            simp only [hk, hc] at h
            simp only [not_true_eq_false, if_false] at h
            simp [toleranceScan, List.filterMap_cons, affirmativeFlag,
              hm, hl, hk, hc, ih h]
          · exfalso
            rw [toleranceScan] at h
            rw [hm, hl] at h
            have hc' : checkIfOnlyTolerablyPresent orig a flag = false := by
              revert hc; cases checkIfOnlyTolerablyPresent orig a flag <;> simp
            simp [hk, hc'] at h
        · have hk' : toleranceField t key = false := by
            revert hk; cases toleranceField t key <;> simp
          rw [toleranceScan] at h
          rw [hm, hl] at h
          simp only [hk', Bool.false_eq_true, not_false_eq_true, if_true] at h
          simp [toleranceScan, List.filterMap_cons, affirmativeFlag,
            hm, hl, hk', ih h]

theorem checkIfOnlyTolerablyPresent_iff (item : MenuItem)
    (allergen tolerableFlag : String) :
    checkIfOnlyTolerablyPresent item allergen tolerableFlag = true ↔
      ∀ c ∈ item.components, allergen ∈ c.contains_allergens →
        (tolerableFlag ∈ c.contains_ingredient_flags ∧
         ∀ f ∈ c.contains_ingredient_flags, f ≠ tolerableFlag →
           isRelatedToAllergen f allergen = false) := by
  rw [checkIfOnlyTolerablyPresent, List.all_eq_true]
  refine forall_congr' (fun c => ?_)
  refine forall_congr' (fun hc => ?_)
  by_cases hall : allergen ∈ c.contains_allergens
  · have : c.contains_allergens.contains allergen = true :=
      List.elem_iff.mpr hall
    simp only [this, if_true, hall, forall_true_left]
    rw [Bool.and_eq_true]
    constructor
    · rintro ⟨hno, htol⟩
      refine ⟨List.elem_iff.mp htol, ?_⟩
      intro f hf hne
      by_contra hrel
      have hrel' : isRelatedToAllergen f allergen = true := by
        revert hrel; cases isRelatedToAllergen f allergen <;> simp
      have : (c.contains_ingredient_flags.filter (fun f =>
          (f != tolerableFlag) && isRelatedToAllergen f allergen)) ≠ [] := by
        intro hnil
        rw [List.filter_eq_nil_iff] at hnil
        exact hnil f hf (by simp [bne_iff_ne, hne, hrel'])
      have hnil : (c.contains_ingredient_flags.filter (fun f =>
          (f != tolerableFlag) && isRelatedToAllergen f allergen)) = [] := by
        simpa [List.isEmpty_iff] using hno
      exact this hnil
    · rintro ⟨htol, hrel⟩
      constructor
      · have hnil : List.filter (fun f =>
            f != tolerableFlag && isRelatedToAllergen f allergen)
            c.contains_ingredient_flags = [] := by
          rw [List.filter_eq_nil_iff]
          intro f hf
          simp only [Bool.and_eq_true, bne_iff_ne, ne_eq, not_and]
          intro hne
          simp [hrel f hf hne]
        simp [hnil]
      · exact List.elem_iff.mpr htol
  · have : c.contains_allergens.contains allergen = false := by
      rw [← Bool.not_eq_true]
      exact fun hcon => hall (List.elem_iff.mp hcon)
    simp [this, hall]

theorem isAllergenTolerable_iff (c : Component) (allergen : String)
    (tolerateFlags : List String) :
    isAllergenTolerable c allergen tolerateFlags = true ↔
      ∃ f ∈ tolerateFlags, f ∈ c.contains_ingredient_flags ∧
        isRelatedToAllergen f allergen = true := by
  by_cases h : tolerateFlags = []
  · subst h
    simp [isAllergenTolerable]
  · rw [isAllergenTolerable, if_neg h]
    simp only [List.any_eq_true, List.mem_filter]
    constructor
    · rintro ⟨f, ⟨hfT, hrel⟩, hmem⟩
      exact ⟨f, hfT, List.elem_iff.mp hmem, hrel⟩
    · rintro ⟨f, hfT, hmem, hrel⟩
      exact ⟨f, ⟨hfT, hrel⟩, List.elem_iff.mpr hmem⟩

theorem toleranceRefineOne_isSome (items : List MenuItem) (A : List String)
    (tol : List (String × ToleranceEntry)) (v : ItemStatus) :
    (toleranceRefineOne items A tol v).isSome = true ↔
      ∃ orig, items.find? (fun it => it.id == v.id) = some orig ∧
        (∀ a ∈ A, ∀ flag, affirmativeFlag tol a = some flag →
          checkIfOnlyTolerablyPresent orig a flag = true) ∧
        (∃ a ∈ A, (affirmativeFlag tol a).isSome = true) := by
  rw [toleranceRefineOne]
  rcases hf : items.find? (fun it => it.id == v.id) with _ | orig
  · rw [hf]
    simp [hf]
  · rw [hf]
    simp only [hf, Option.some.injEq, exists_eq_left']
    have hfst := toleranceScan_fst orig tol A
    by_cases hsc : (toleranceScan orig tol A).1 = true
    · have hsnd := toleranceScan_snd orig tol A hsc
      by_cases hne : (toleranceScan orig tol A).2 = []
      · rw [if_neg (by simp [hsc, hne])]
        simp only [Option.isSome_none, Bool.false_eq_true, false_iff, not_and]
        intro _
        rw [hsnd, List.filterMap_eq_nil_iff] at hne
        rintro ⟨a, ha, haff⟩
        rcases haf : affirmativeFlag tol a with _ | flag
        · rw [haf] at haff; cases haff
        · have := hne a ha
          rw [haf] at this
          cases this
      · rw [if_pos (by simp [hsc, List.isEmpty_iff, hne])]
        simp only [Option.isSome_some, true_iff]
        constructor
        · intro a ha flag hflag
          have hsc2 := hsc
          rw [hfst] at hsc2
          have := List.all_eq_true.mp hsc2 a ha
          rw [hflag] at this
          exact this
        · rw [hsnd] at hne
          by_contra hno
          push_neg at hno
          refine hne (List.filterMap_eq_nil_iff.mpr ?_)
          intro a ha
          have := hno a ha
          rcases haf : affirmativeFlag tol a with _ | flag
          · rfl
          · rw [haf] at this
            simp at this
    · rw [if_neg (by simp [Bool.and_eq_true]; intro hc; exact absurd hc hsc)]
      simp only [Option.isSome_none, Bool.false_eq_true, false_iff, not_and]
      intro hall
      exfalso
      refine hsc ?_
      rw [hfst, List.all_eq_true]
      intro a ha
      rcases haf : affirmativeFlag tol a with _ | flag
      · simp
      · simpa using hall a ha flag haf

theorem toleranceRefineOne_some_fields {items : List MenuItem}
    {A : List String} {tol : List (String × ToleranceEntry)}
    {v v' : ItemStatus} (h : toleranceRefineOne items A tol v = some v') :
    v'.id = v.id ∧ v'.name = v.name ∧ v'.category = v.category ∧
    v'.reasons = v.reasons ∧ v'.modifications = v.modifications ∧
    v'.toleranceAllowed = true := by
  rw [toleranceRefineOne] at h
  rcases hf : items.find? (fun it => it.id == v.id) with _ | orig
  · rw [hf] at h
    cases h
  · rw [hf] at h
    simp only at h
    split at h
    · obtain rfl := Option.some.inj h
      exact ⟨rfl, rfl, rfl, rfl, rfl, rfl⟩
    · cases h

/-- A modification is applicable iff its trigger has a `when` condition
whose allergen set meets the avoided allergens or whose flag set meets the
avoided ingredient flags. -/
theorem modIsApplicable_iff (A F : List String) (m : Modification) :
    modIsApplicable A F m = true ↔
      ∃ w, m.«when» = some w ∧
        ((∃ a ∈ w.avoid_allergens, a ∈ A) ∨
         (∃ f ∈ w.avoid_ingredient_flags, f ∈ F)) := by
  rcases hw : m.«when» with _ | w
  · simp [modIsApplicable, hw]
  · simp only [modIsApplicable, hw, Option.some.injEq, Bool.or_eq_true,
      Bool.and_eq_true, List.any_eq_true, List.elem_iff, Bool.not_eq_true',
      List.isEmpty_iff]
    constructor
    · rintro (⟨-, a, ha, haA⟩ | ⟨-, f, hf, hfF⟩)
      · exact ⟨w, rfl, Or.inl ⟨a, ha, by simpa using haA⟩⟩
      · exact ⟨w, rfl, Or.inr ⟨f, hf, by simpa using hfF⟩⟩
    · rintro ⟨w', rfl, ⟨a, ha, haA⟩ | ⟨f, hf, hfF⟩⟩
      · exact Or.inl ⟨by simp [List.isEmpty_iff, List.ne_nil_of_mem ha],
          a, ha, by simpa using haA⟩
      · exact Or.inr ⟨by simp [List.isEmpty_iff, List.ne_nil_of_mem hf],
          f, hf, by simpa using hfF⟩

/-! ## Concrete fixtures used by the scenario conjuncts and witnesses -/

/-- The single component of the sesame scenario item. -/
def sesameComponent : Component :=
  { name := "sesame dressing"
    contains_allergens := ["sesame"]
    contains_ingredient_flags := ["sesame_oil"] }

/-- One-component item containing sesame, flagged `sesame_oil` only
(the spec's sesame-oil scenario). -/
def sesameItem : MenuItem :=
  { id := "s1", name := "Sesame Salad", category := "salad"
    components := [sesameComponent] }

/-- Item blocked by dairy (an allergen with no tolerance mapping). -/
def dairyItem : MenuItem :=
  { id := "d1", name := "Cheese Plate", category := "starter"
    components := [{ name := "cheese"
                     contains_allergens := ["dairy"]
                     contains_ingredient_flags := [] }] }

/-- Remove-the-soy-glaze modification triggered by gluten. -/
def modRemoveGlaze : Modification :=
  { action := "remove", target_component := "soy glaze"
    «when» := some { avoid_allergens := ["gluten"]
                     avoid_ingredient_flags := [] } }

/-- Remove-the-shrimp-paste modification triggered by shellfish. -/
def modRemoveShrimp : Modification :=
  { action := "remove", target_component := "shrimp paste"
    «when» := some { avoid_allergens := ["shellfish"]
                     avoid_ingredient_flags := [] } }

/-- Item that fails a vegan dietary check and has a gluten issue fully
cleared by its declared modification. -/
def veganFailItem : MenuItem :=
  { id := "v1", name := "Glazed Tofu", category := "main"
    components := [{ name := "soy glaze"
                     contains_allergens := ["gluten"]
                     contains_ingredient_flags := [] }]
    modifications := [modRemoveGlaze] }

/-- Item with two blocking allergens in two components, each cleared by a
different modification (jointly sufficient, individually insufficient). -/
def comboItem : MenuItem :=
  { id := "c1", name := "House Noodles", category := "main"
    components := [{ name := "soy glaze"
                     contains_allergens := ["gluten"]
                     contains_ingredient_flags := [] },
                   { name := "shrimp paste"
                     contains_allergens := ["shellfish"]
                     contains_ingredient_flags := [] },
                   { name := "noodles"
                     contains_allergens := []
                     contains_ingredient_flags := [] }]
    modifications := [modRemoveGlaze, modRemoveShrimp] }

/-- Item whose only issue is a peanut cross-contact risk. -/
def ccItem : MenuItem :=
  { id := "cc1", name := "Grilled Fish", category := "main"
    components := [{ name := "fish"
                     contains_allergens := []
                     contains_ingredient_flags := [] }]
    cross_contact_risk := ["peanut"] }

/-! ## Claim theorems -/

/-- Claim C2: for every catalog and profile, each evaluated menu item
lands in exactly one of the three buckets — the bucket sizes add up to the
catalog size both after the first pass (`filterByDietaryAndAllergies`) and
after tolerance refinement (`filterByTolerance`), and the first-pass
buckets are exactly the catalog filtered by the per-item category, so the
buckets are exhaustive and mutually exclusive. -/
theorem C2_trichotomy (items : List MenuItem) (P A F : List String)
    (cc : Bool) (T : List String) (tol : List (String × ToleranceEntry)) :
    ((filterByDietaryAndAllergies items P A F cc T).safe =
      (items.filter (fun i =>
        decide ((evalItem P A F cc T i).1 = Category.safe))).map
        (fun i => (evalItem P A F cc T i).2)) ∧
    ((filterByDietaryAndAllergies items P A F cc T).canBeModified =
      (items.filter (fun i =>
        decide ((evalItem P A F cc T i).1 = Category.canBeModified))).map
        (fun i => (evalItem P A F cc T i).2)) ∧
    ((filterByDietaryAndAllergies items P A F cc T).filtered =
      (items.filter (fun i =>
        decide ((evalItem P A F cc T i).1 = Category.filtered))).map
        (fun i => (evalItem P A F cc T i).2)) ∧
    ((filterByDietaryAndAllergies items P A F cc T).safe.length +
     (filterByDietaryAndAllergies items P A F cc T).canBeModified.length +
     (filterByDietaryAndAllergies items P A F cc T).filtered.length =
       items.length) ∧
    ((filterByTolerance items (filterByDietaryAndAllergies items P A F cc T)
        A tol).safe.length +
     (filterByTolerance items (filterByDietaryAndAllergies items P A F cc T)
        A tol).canBeModified.length +
     (filterByTolerance items (filterByDietaryAndAllergies items P A F cc T)
        A tol).filtered.length = items.length) := by
  have h1 : (filterByDietaryAndAllergies items P A F cc T).safe.length +
      (filterByDietaryAndAllergies items P A F cc T).canBeModified.length +
      (filterByDietaryAndAllergies items P A F cc T).filtered.length =
        items.length := by
    rw [filterByDietaryAndAllergies_eq]
    simp only [List.length_map]
    exact category_filter_length P A F cc T items
  refine ⟨by rw [filterByDietaryAndAllergies_eq],
          by rw [filterByDietaryAndAllergies_eq],
          by rw [filterByDietaryAndAllergies_eq], h1, ?_⟩
  rw [filterByTolerance_eq]
  by_cases htol : tol = []
  · rw [if_pos htol]
    exact h1
  · rw [if_neg htol]
    simp only [List.length_append]
    have h2 := filterMap_filter_length (toleranceRefineOne items A tol)
      (filterByDietaryAndAllergies items P A F cc T).filtered
    omega

/-- Claim C9: the all-empty profile (no dietary preferences, no allergies,
no avoided flags, cross-contact not accepted, no tolerated flags) places
every catalog item in `safe` with an empty reason list; `filtered` and
`canBeModified` are empty. -/
theorem C9_empty_profile (items : List MenuItem) :
    filterByDietaryAndAllergies items [] [] [] false [] =
      { safe := items.map (fun item =>
          { id := item.id, name := item.name, category := item.category
            reasons := [] }),
        filtered := [], canBeModified := [] } := by
  have hev : ∀ item : MenuItem, evalItem [] [] [] false [] item =
      (Category.safe,
        { id := item.id, name := item.name, category := item.category
          reasons := [] }) := by
    intro item
    rfl
  rw [filterByDietaryAndAllergies_eq]
  simp [hev]

/-- Claim C10: a non-empty dietary preference list containing neither
`vegetarian` nor `vegan` passes every item with no recorded reason, and
the whole first pass behaves as if no dietary preference were given. -/
theorem C10_unknown_dietary (item : MenuItem) (items : List MenuItem)
    (prefs A F : List String) (cc : Bool) (T : List String)
    (h1 : prefs ≠ []) (h2 : "vegetarian" ∉ prefs) (h3 : "vegan" ∉ prefs) :
    checkDietaryCompliance item prefs = (true, []) ∧
    filterByDietaryAndAllergies items prefs A F cc T =
      filterByDietaryAndAllergies items [] A F cc T := by
  have hd : ∀ it : MenuItem, checkDietaryCompliance it prefs = (true, []) := by
    intro it
    rw [checkDietaryCompliance, if_neg h1]
    exact dietLoop_unknown h2 h3
  refine ⟨hd item, ?_⟩
  have hev : ∀ it, evalItem prefs A F cc T it = evalItem [] A F cc T it := by
    intro it
    have h0 : checkDietaryCompliance it [] = (true, []) := by
      simp [checkDietaryCompliance]
    simp only [evalItem, hd it, h0]
  rw [filterByDietaryAndAllergies_eq, filterByDietaryAndAllergies_eq]
  simp [hev]

/-- Witness for C10 at a concrete unknown preference list `["halal"]`. -/
theorem C10_unknown_dietary_witness :
    checkDietaryCompliance sesameItem ["halal"] = (true, []) ∧
    filterByDietaryAndAllergies [sesameItem] ["halal"] ["sesame"] [] false [] =
      filterByDietaryAndAllergies [sesameItem] [] ["sesame"] [] false [] :=
  C10_unknown_dietary sesameItem [sesameItem] ["halal"] ["sesame"] [] false []
    (by decide) (by decide) (by decide)

/-- Verdict of the sesame scenario with no tolerated flags. -/
def sesameFilteredStatus : ItemStatus :=
  { id := "s1", name := "Sesame Salad", category := "salad"
    reasons :=
      ["\"sesame dressing\" contains intolerable allergen(s): sesame"] }

/-- Verdict of the sesame scenario with `sesame_oil` tolerated. -/
def sesameToleratedStatus : ItemStatus :=
  { id := "s1", name := "Sesame Salad", category := "salad"
    reasons := ["\"sesame dressing\" contains tolerated form: sesame"] }

/-- Claim C5: first-pass per-component tolerability.  `isAllergenTolerable`
holds iff the tolerated-flag set contains a flag declared on the component
that is a related form of the allergen; the relation table is exactly
sesame→{sesame_seed, sesame_oil}, gluten→{soy_sauce},
shellfish→{oyster_sauce}, peanut→{peanut_oil}; and in the sesame-oil
scenario the item is filtered with an intolerable-sesame reason when no
flag is tolerated and safe with a tolerated-form reason when `sesame_oil`
is tolerated. -/
theorem C5_tolerability :
    (∀ (c : Component) (allergen : String) (tolerateFlags : List String),
      isAllergenTolerable c allergen tolerateFlags = true ↔
        ∃ f ∈ tolerateFlags, f ∈ c.contains_ingredient_flags ∧
          isRelatedToAllergen f allergen = true) ∧
    (∀ f : String,
      (isRelatedToAllergen f "sesame" = true ↔
        f = "sesame_seed" ∨ f = "sesame_oil") ∧
      (isRelatedToAllergen f "gluten" = true ↔ f = "soy_sauce") ∧
      (isRelatedToAllergen f "shellfish" = true ↔ f = "oyster_sauce") ∧
      (isRelatedToAllergen f "peanut" = true ↔ f = "peanut_oil")) ∧
    (filterByDietaryAndAllergies [sesameItem] [] ["sesame"] [] false [] =
      { safe := [], filtered := [sesameFilteredStatus]
        canBeModified := [] }) ∧
    (filterByDietaryAndAllergies [sesameItem] [] ["sesame"] [] false
        ["sesame_oil"] =
      { safe := [sesameToleratedStatus]
        filtered := [], canBeModified := [] }) := by
  refine ⟨isAllergenTolerable_iff, ?_, rfl, rfl⟩
  intro f
  refine ⟨?_, ?_, ?_, ?_⟩ <;>
    simp [isRelatedToAllergen, List.contains, List.elem_iff]

/-- Claim C6: any avoided ingredient flag on a component rejects the item
regardless of the tolerated-flag set, with a reason naming the component,
and any avoided allergen not proven tolerable does the same; the same
rejection holds in the post-modification re-check
(`checkComplianceOnComponents`). -/
theorem C6_no_silent_drop (item : MenuItem) (A F : List String) (cc : Bool)
    (T : List String) (c : Component) (hc : c ∈ item.components) :
    (intolerableOf A T c =
      (forbiddenAllergensOf A c).filter
        (fun a => !(isAllergenTolerable c a T))) ∧
    (forbiddenFlagsOf F c ≠ [] →
      (checkCompliance item A F cc T).1 = false ∧
      flagReason c (forbiddenFlagsOf F c) ∈ (checkCompliance item A F cc T).2) ∧
    (intolerableOf A T c ≠ [] →
      (checkCompliance item A F cc T).1 = false ∧
      intolerableReason c (intolerableOf A T c) ∈
        (checkCompliance item A F cc T).2) ∧
    (∀ (comps : List Component) (risk : List String), c ∈ comps →
      (forbiddenFlagsOf F c ≠ [] ∨ intolerableOf A T c ≠ []) →
      (checkComplianceOnComponents comps risk A F cc T).1 = false) := by
  have hfilter : intolerableOf A T c =
      (forbiddenAllergensOf A c).filter
        (fun a => !(isAllergenTolerable c a T)) := by
    rw [intolerableOf]
    refine List.filter_congr (fun a ha => ?_)
    by_cases htol : isAllergenTolerable c a T = true
    · have hmm : a ∈ tolerableAllergensOf A T c :=
        List.mem_filter.mpr ⟨ha, htol⟩
      simp [List.elem_iff.mpr hmm, htol, hmm]
    · have hmm : a ∉ tolerableAllergensOf A T c := fun hmem =>
        htol (List.mem_filter.mp hmem).2
      have hnc : (tolerableAllergensOf A T c).contains a = false := by
        rw [← Bool.not_eq_true]
        exact fun hcon => hmm (List.elem_iff.mp hcon)
      have htol' : isAllergenTolerable c a T = false := by
        revert htol; cases isAllergenTolerable c a T <;> simp
      simp [hnc, htol', hmm]
  have hissue : ∀ (h : forbiddenFlagsOf F c ≠ [] ∨ intolerableOf A T c ≠ []),
      componentHasIssue A F T c = true := by
    rintro (h | h) <;> simp [componentHasIssue, h]
  have hfstfalse : ∀ (h : forbiddenFlagsOf F c ≠ [] ∨ intolerableOf A T c ≠ []),
      (checkCompliance item A F cc T).1 = false := by
    intro h
    rw [← Bool.not_eq_true, checkCompliance_fst]
    rintro ⟨hall, -⟩
    have := hall c hc
    rw [hissue h] at this
    cases this
  have hocfalse : ∀ (comps : List Component) (risk : List String),
      c ∈ comps →
      (forbiddenFlagsOf F c ≠ [] ∨ intolerableOf A T c ≠ []) →
      (checkComplianceOnComponents comps risk A F cc T).1 = false := by
    intro comps risk hmem h
    rw [← Bool.not_eq_true, checkComplianceOnComponents_fst]
    rintro ⟨hall, -⟩
    have := hall c hmem
    rw [hissue h] at this
    cases this
  have hne : ∀ (h : forbiddenFlagsOf F c ≠ [] ∨ intolerableOf A T c ≠ []),
      ¬(A = [] ∧ F = []) := by
    rintro (h | h) ⟨hA, hF⟩
    · exact h (by simp [forbiddenFlagsOf, hF])
    · exact h (intolerableOf_of_forbidden_nil (by simp [forbiddenAllergensOf, hA]))
  refine ⟨hfilter, fun h => ⟨hfstfalse (Or.inl h), ?_⟩,
    fun h => ⟨hfstfalse (Or.inr h), ?_⟩, hocfalse⟩
  · rw [checkCompliance_snd item A F cc T (hne (Or.inl h))]
    refine List.mem_append_left _ (List.mem_flatten.mpr
      ⟨componentReasonsFull A F T c, List.mem_map_of_mem _ hc, ?_⟩)
    rw [componentReasonsFull]
    exact List.mem_append_right _ (by simp [h])
  · rw [checkCompliance_snd item A F cc T (hne (Or.inr h))]
    have hforb : forbiddenAllergensOf A c ≠ [] := by
      intro hnil
      exact h (intolerableOf_of_forbidden_nil hnil)
    refine List.mem_append_left _ (List.mem_flatten.mpr
      ⟨componentReasonsFull A F T c, List.mem_map_of_mem _ hc, ?_⟩)
    rw [componentReasonsFull]
    exact List.mem_append_left _ (by simp [h, hforb])

/-- Witness for C6: a component carrying the avoided flag `sesame_oil`
(also tolerated) still rejects the item, with the flag reason recorded. -/
theorem C6_no_silent_drop_witness :
    (checkCompliance sesameItem ["sesame"] ["sesame_oil"] false
      ["sesame_oil"]).1 = false ∧
    flagReason sesameComponent
      (forbiddenFlagsOf ["sesame_oil"] sesameComponent) ∈
      (checkCompliance sesameItem ["sesame"] ["sesame_oil"] false
        ["sesame_oil"]).2 :=
  (C6_no_silent_drop sesameItem ["sesame"] ["sesame_oil"] false ["sesame_oil"]
    sesameComponent (by decide)).2.1 (by decide)

/-- The reason list of a first-pass verdict is always the dietary reasons
followed by the compliance reasons, whatever the bucket. -/
theorem evalItem_reasons (P A F : List String) (cc : Bool) (T : List String)
    (item : MenuItem) :
    (evalItem P A F cc T item).2.reasons =
      (checkDietaryCompliance item P).2 ++ (checkCompliance item A F cc T).2 := by
  rw [evalItem]
  split_ifs <;> rfl

/-- Claim C8: for a dietary-compliant item whose components carry no
avoided allergens and no avoided flags but whose cross-contact-risk list
meets the avoided allergens, the item is filtered with a cross-contact
reason when cross-contact is not accepted, and safe when it is. -/
theorem C8_cross_contact (item : MenuItem) (prefs A F T : List String)
    (hd : (checkDietaryCompliance item prefs).1 = true)
    (hcomp : ∀ c ∈ item.components,
      forbiddenAllergensOf A c = [] ∧ forbiddenFlagsOf F c = [])
    (hrisk : item.cross_contact_risk.filter (fun r => A.contains r) ≠ []) :
    (evalItem prefs A F false T item).1 = Category.filtered ∧
    ("Cross-contact risk: " ++ String.intercalate ", "
      (item.cross_contact_risk.filter (fun r => A.contains r))) ∈
      (evalItem prefs A F false T item).2.reasons ∧
    (evalItem prefs A F true T item).1 = Category.safe := by
  have hA : A ≠ [] := by
    intro hA
    refine hrisk (List.filter_eq_nil_iff.mpr (fun r _ => ?_))
    simp [hA]
  have hnoissue : ∀ c ∈ item.components, componentHasIssue A F T c = false := by
    intro c hc
    obtain ⟨h1, h2⟩ := hcomp c hc
    simp [componentHasIssue, intolerableOf_of_forbidden_nil h1, h2]
  have hfalse : (checkCompliance item A F false T).1 = false := by
    rw [← Bool.not_eq_true, checkCompliance_fst]
    rintro ⟨-, hcc⟩
    exact hrisk (hcc rfl)
  have htrue : (checkCompliance item A F true T).1 = true := by
    rw [checkCompliance_fst]
    exact ⟨hnoissue, fun hcontr => by cases hcontr⟩
  have hcm : canModificationsMakeItemSafe item A F false T = false := by
    rw [canModificationsMakeItemSafe]
    by_cases hm : item.modifications = []
    · rw [if_pos hm]
    · rw [if_neg hm]
      by_cases ha : item.modifications.filter (modIsApplicable A F) = []
      · rw [if_pos ha]
      · rw [if_neg ha]
        rw [← Bool.not_eq_true, checkComplianceOnComponents_fst]
        rintro ⟨-, hcc⟩
        exact hrisk (hcc rfl)
  refine ⟨?_, ?_, ?_⟩
  · simp [evalItem, hd, hfalse, hcm]
  · have hsnd := checkCompliance_snd item A F false T
      (fun hemp => hA hemp.1)
    rw [evalItem_reasons, checkDietaryCompliance_fst_true hd,
      List.nil_append, hsnd]
    refine List.mem_append_right _ ?_
    rw [if_pos ⟨rfl, hrisk⟩]
    exact List.mem_singleton.mpr rfl
  · simp [evalItem, hd, htrue]

/-- Witness for C8 on the concrete peanut cross-contact item. -/
theorem C8_cross_contact_witness :
    (evalItem [] ["peanut"] [] false [] ccItem).1 = Category.filtered ∧
    ("Cross-contact risk: " ++ String.intercalate ", "
      (ccItem.cross_contact_risk.filter
        (fun r => (["peanut"] : List String).contains r))) ∈
      (evalItem [] ["peanut"] [] false [] ccItem).2.reasons ∧
    (evalItem [] ["peanut"] [] true [] ccItem).1 = Category.safe :=
  C8_cross_contact ccItem [] ["peanut"] [] [] (by decide)
    (by decide) (by decide)

/-- Claim C7: for a dietary-compliant item found non-compliant, the item is
categorized `canBeModified` iff the single re-check of the component list
obtained by cumulatively applying every applicable modification (plus the
original cross-contact set) reports no issue, and it then lists exactly
the applicable modifications; concretely, two modifications each
individually insufficient but jointly sufficient put `comboItem` in
`canBeModified` listing both. -/
theorem C7_joint_modifications :
    (∀ (item : MenuItem) (prefs A F : List String) (cc : Bool)
        (T : List String),
      (checkDietaryCompliance item prefs).1 = true →
      (checkCompliance item A F cc T).1 = false →
      (((evalItem prefs A F cc T item).1 = Category.canBeModified) ↔
        (checkComplianceOnComponents
          ((getApplicableModifications item A F).foldl applyModification
            item.components)
          item.cross_contact_risk A F cc T).1 = true) ∧
      ((evalItem prefs A F cc T item).1 = Category.canBeModified →
        (evalItem prefs A F cc T item).2.modifications =
          some (getApplicableModifications item A F))) ∧
    (∀ (A F : List String) (m : Modification),
      modIsApplicable A F m = true ↔
        ∃ w, m.«when» = some w ∧
          ((∃ a ∈ w.avoid_allergens, a ∈ A) ∨
           (∃ f ∈ w.avoid_ingredient_flags, f ∈ F))) ∧
    ((filterByDietaryAndAllergies [comboItem] [] ["gluten", "shellfish"] []
        false []).canBeModified.map (fun v => v.modifications) =
      [some [modRemoveGlaze, modRemoveShrimp]]) ∧
    ((filterByDietaryAndAllergies [comboItem] [] ["gluten", "shellfish"] []
        false []).filtered = []) ∧
    ((checkComplianceOnComponents
        (applyModification comboItem.components modRemoveGlaze)
        comboItem.cross_contact_risk ["gluten", "shellfish"] [] false []).1 =
      false) ∧
    ((checkComplianceOnComponents
        (applyModification comboItem.components modRemoveShrimp)
        comboItem.cross_contact_risk ["gluten", "shellfish"] [] false []).1 =
      false) := by
  refine ⟨?_, modIsApplicable_iff, rfl, rfl, rfl, rfl⟩
  intro item prefs A F cc T hd hcomp
  have hoc : (checkComplianceOnComponents item.components
      item.cross_contact_risk A F cc T).1 = false := by
    rw [← checkCompliance_fst_eq]
    exact hcomp
  have hcm_iff : canModificationsMakeItemSafe item A F cc T = true ↔
      (checkComplianceOnComponents
        ((getApplicableModifications item A F).foldl applyModification
          item.components)
        item.cross_contact_risk A F cc T).1 = true := by
    rw [canModificationsMakeItemSafe, getApplicableModifications]
    by_cases hm : item.modifications = []
    · rw [if_pos hm]
      have hfn : item.modifications.filter (modIsApplicable A F) = [] := by
        rw [hm]; rfl
      rw [hfn, List.foldl_nil, hoc]
    · rw [if_neg hm]
      by_cases ha : item.modifications.filter (modIsApplicable A F) = []
      · rw [if_pos ha, ha, List.foldl_nil, hoc]
      · rw [if_neg ha]
  constructor
  · rw [← hcm_iff]
    by_cases hm : item.modifications = []
    · have hcm : canModificationsMakeItemSafe item A F cc T = false := by
        rw [canModificationsMakeItemSafe, if_pos hm]
      simp [evalItem, hcomp, hm, hcm]
    · cases hcmv : canModificationsMakeItemSafe item A F cc T <;>
        simp [evalItem, hcomp, hm, hcmv]
  · intro hcat
    by_cases hm : item.modifications = []
    · have hcm : canModificationsMakeItemSafe item A F cc T = false := by
        rw [canModificationsMakeItemSafe, if_pos hm]
      simp [evalItem, hcomp, hm, hcm] at hcat
    · cases hcmv : canModificationsMakeItemSafe item A F cc T
      · simp [evalItem, hcomp, hm, hcmv] at hcat
      · simp [evalItem, hcomp, hm, hcmv]

/-- Witness for C7 on the two-modification item. -/
theorem C7_joint_modifications_witness :
    ((evalItem [] ["gluten", "shellfish"] [] false [] comboItem).1 =
        Category.canBeModified ↔
      (checkComplianceOnComponents
        ((getApplicableModifications comboItem ["gluten", "shellfish"]
          []).foldl applyModification comboItem.components)
        comboItem.cross_contact_risk ["gluten", "shellfish"] [] false []).1 =
        true) ∧
    ((evalItem [] ["gluten", "shellfish"] [] false [] comboItem).1 =
        Category.canBeModified →
      (evalItem [] ["gluten", "shellfish"] [] false [] comboItem).2.modifications =
        some (getApplicableModifications comboItem ["gluten", "shellfish"] [])) :=
  C7_joint_modifications.1 comboItem [] ["gluten", "shellfish"] [] false []
    (by decide) (by decide)

/-- Counterexample to claim C3 as stated: `veganFailItem` fails the vegan
dietary check, yet because its gluten issue is cleared by its declared
modification the engine places it in `canBeModified` (not `filtered`) —
modifications do rescue a dietary-non-compliant item into the
`canBeModified` bucket. -/
theorem C3_counterexample :
    (checkDietaryCompliance veganFailItem ["vegan"]).1 = false ∧
    (filterByDietaryAndAllergies [veganFailItem] ["vegan"] ["gluten"] []
      false []).canBeModified.length = 1 ∧
    (filterByDietaryAndAllergies [veganFailItem] ["vegan"] ["gluten"] []
      false []).filtered = [] ∧
    (filterByDietaryAndAllergies [veganFailItem] ["vegan"] ["gluten"] []
      false []).safe = [] :=
  ⟨rfl, rfl, rfl, rfl⟩

/-- Claim C3 (amended): an item failing the dietary check is never `safe`,
and when it has no allergen/flag/cross-contact issue it is `filtered` —
but when it also has issues that its applicable modifications fully clear,
the engine categorizes it `canBeModified` despite the dietary failure. -/
theorem C3_dietary_noncompliance (item : MenuItem)
    (prefs A F : List String) (cc : Bool) (T : List String)
    (hd : (checkDietaryCompliance item prefs).1 = false) :
    ((evalItem prefs A F cc T item).1 ≠ Category.safe) ∧
    ((checkCompliance item A F cc T).1 = true →
      (evalItem prefs A F cc T item).1 = Category.filtered) ∧
    ((checkCompliance item A F cc T).1 = false →
      item.modifications ≠ [] →
      canModificationsMakeItemSafe item A F cc T = true →
      (evalItem prefs A F cc T item).1 = Category.canBeModified) := by
  refine ⟨?_, ?_, ?_⟩
  · intro hsafe
    rw [evalItem] at hsafe
    rw [if_neg (by simp [hd])] at hsafe
    split at hsafe <;> (try split at hsafe) <;> simp at hsafe
  · intro hcomp
    simp [evalItem, hd, hcomp]
  · intro hcomp hm hcm
    simp [evalItem, hd, hcomp, hm, hcm]

/-- Witness for C3 (amended) on `veganFailItem`: dietary check fails,
compliance fails, and the modification rescue fires. -/
theorem C3_dietary_noncompliance_witness :
    ((evalItem ["vegan"] ["gluten"] [] false [] veganFailItem).1 ≠
      Category.safe) ∧
    (evalItem ["vegan"] ["gluten"] [] false [] veganFailItem).1 =
      Category.canBeModified :=
  ⟨(C3_dietary_noncompliance veganFailItem ["vegan"] ["gluten"] [] false []
      (by decide)).1,
   (C3_dietary_noncompliance veganFailItem ["vegan"] ["gluten"] [] false []
      (by decide)).2.2 (by decide) (by decide) (by decide)⟩

/-- Tolerance declaration affirming soy sauce for gluten. -/
def glutenTol : List (String × ToleranceEntry) :=
  [("gluten", { canUseSoySauce := true })]

/-- Tolerance declaration affirming sesame oil for sesame. -/
def sesameTol : List (String × ToleranceEntry) :=
  [("sesame", { canUseSesameOil := true })]

/-- A filtered verdict fed to the refiner in the C1 witness. -/
def sesameVerdict : ItemStatus :=
  { id := "s1", name := "Sesame Salad", category := "salad"
    reasons := ["prior reason"] }

/-- The promoted form of `sesameVerdict` produced by the refiner. -/
def sesameVerdictPromoted : ItemStatus :=
  { id := "s1", name := "Sesame Salad", category := "salad"
    reasons := ["prior reason"]
    tolerance_notes := some ["Can tolerate sesame in form: sesame_oil"]
    toleranceAllowed := true }

/-- Counterexample to claim C1 as stated: `dairyItem` is filtered because
of the avoided allergen `dairy`, which is present in a component with no
ingredient flags at all (so certainly not solely via a tolerated form),
yet an affirmative gluten/soy-sauce tolerance promotes it to `safe` —
`filterByTolerance` promotes an item whose blocking allergen is not
tolerated at all and whose blocking issue persists. -/
theorem C1_counterexample :
    (filterByDietaryAndAllergies [dairyItem] [] ["dairy", "gluten"] []
      false []).safe = [] ∧
    (filterByDietaryAndAllergies [dairyItem] [] ["dairy", "gluten"] []
      false []).filtered.length = 1 ∧
    (filterByTolerance [dairyItem]
      (filterByDietaryAndAllergies [dairyItem] [] ["dairy", "gluten"] []
        false [])
      ["dairy", "gluten"] glutenTol).safe.length = 1 ∧
    (filterByTolerance [dairyItem]
      (filterByDietaryAndAllergies [dairyItem] [] ["dairy", "gluten"] []
        false [])
      ["dairy", "gluten"] glutenTol).filtered = [] ∧
    dairyItem.components.map Component.contains_allergens = [["dairy"]] ∧
    dairyItem.components.map Component.contains_ingredient_flags = [[]] ∧
    "dairy" ∈ (["dairy", "gluten"] : List String) :=
  ⟨rfl, rfl, rfl, rfl, rfl, rfl, by decide⟩

/-- Claim C1 (amended): the tolerance refiner never moves an item out of
`safe` or `canBeModified` (it only appends promotions to `safe` and keeps
`canBeModified` unchanged), and it promotes a filtered verdict iff its id
resolves in the catalog, at least one avoided allergen carries an
affirmative tolerance declaration, and every avoided allergen with an
affirmative declaration occurs in the item only via its designated
tolerated flag (every component declaring that allergen carries the flag
and no other related form).  Other rejection reasons — dietary failures,
avoided ingredient flags, cross-contact, or avoided allergens without an
affirmative mapping — are not re-checked.  Promotions keep the original
reasons and are flagged with `toleranceAllowed`. -/
theorem C1_tolerance_refiner (items : List MenuItem) (r1 : Results)
    (A : List String) (tol : List (String × ToleranceEntry)) :
    ((filterByTolerance items r1 A tol).canBeModified = r1.canBeModified) ∧
    ((filterByTolerance items r1 A tol).safe =
      r1.safe ++ (if tol = [] then []
        else r1.filtered.filterMap (toleranceRefineOne items A tol))) ∧
    ((filterByTolerance items r1 A tol).filtered =
      (if tol = [] then r1.filtered
        else r1.filtered.filter
          (fun v => (toleranceRefineOne items A tol v).isNone))) ∧
    (∀ v : ItemStatus, (toleranceRefineOne items A tol v).isSome = true ↔
      ∃ orig, items.find? (fun it => it.id == v.id) = some orig ∧
        (∀ a ∈ A, ∀ flag, affirmativeFlag tol a = some flag →
          ∀ c ∈ orig.components, a ∈ c.contains_allergens →
            (flag ∈ c.contains_ingredient_flags ∧
             ∀ f ∈ c.contains_ingredient_flags, f ≠ flag →
               isRelatedToAllergen f a = false)) ∧
        (∃ a ∈ A, (affirmativeFlag tol a).isSome = true)) ∧
    (∀ v v' : ItemStatus, toleranceRefineOne items A tol v = some v' →
      v'.reasons = v.reasons ∧ v'.toleranceAllowed = true) := by
  have hbase := filterByTolerance_eq items r1 A tol
  refine ⟨?_, ?_, ?_, ?_, ?_⟩
  · rw [hbase]
    by_cases htol : tol = [] <;> simp [htol]
  · rw [hbase]
    by_cases htol : tol = [] <;> simp [htol]
  · rw [hbase]
    by_cases htol : tol = [] <;> simp [htol]
  · intro v
    rw [toleranceRefineOne_isSome]
    refine exists_congr (fun orig => and_congr_right (fun _ => ?_))
    refine and_congr_left (fun _ => ?_)
    refine forall_congr' (fun a => forall_congr' (fun _ =>
      forall_congr' (fun flag => forall_congr' (fun _ => ?_))))
    exact checkIfOnlyTolerablyPresent_iff orig a flag
  · intro v v' h
    obtain ⟨-, -, -, hr, -, ht⟩ := toleranceRefineOne_some_fields h
    exact ⟨hr, ht⟩

/-- Witness for C1 (amended): the refiner on `sesameItem` with an
affirmative sesame-oil tolerance promotes the filtered verdict, keeping
its reasons and setting the tolerance flag. -/
theorem C1_tolerance_refiner_witness :
    ((filterByTolerance [sesameItem]
        { safe := [], filtered := [sesameVerdict], canBeModified := [] }
        ["sesame"] sesameTol).canBeModified = []) ∧
    (sesameVerdictPromoted.reasons = sesameVerdict.reasons ∧
      sesameVerdictPromoted.toleranceAllowed = true) :=
  ⟨(C1_tolerance_refiner [sesameItem]
      { safe := [], filtered := [sesameVerdict], canBeModified := [] }
      ["sesame"] sesameTol).1,
   (C1_tolerance_refiner [sesameItem]
      { safe := [], filtered := [sesameVerdict], canBeModified := [] }
      ["sesame"] sesameTol).2.2.2.2 sesameVerdict sesameVerdictPromoted rfl⟩

/-- Counterexample to claim C4 as stated: with `veganFailItem` and a
gluten-avoiding profile, the combined pass classifies the item as
`canBeModified`, yet `runMultiAllergyReport` returns a report carrying
only the combined safe list and the per-allergen safe mapping — the
modifiable and filtered lists appear nowhere in the report, and no
tolerance-refinement step is run (the report builder accepts no tolerance
declaration at all). -/
theorem C4_counterexample :
    (filterByDietaryAndAllergies [veganFailItem] [] ["gluten"] [] false
      []).canBeModified ≠ [] ∧
    runMultiAllergyReport [veganFailItem] { avoidAllergens := ["gluten"] } =
      { safeForAll := [], safeByAllergy := [("gluten", [])] } :=
  ⟨by decide, rfl⟩

/-- Claim C4 (amended): `runMultiAllergyReport` returns exactly the
combined-pass safe bucket as `safeForAll` plus, for each avoided allergen
in order, the safe bucket of a single-allergen pass; it exposes neither
the `canBeModified` nor the `filtered` buckets and never invokes
`filterByTolerance`. -/
theorem C4_report_contents (items : List MenuItem) (p : TableProfile) :
    (runMultiAllergyReport items p).safeForAll =
      (filterByDietaryAndAllergies items p.dietaryPreferences
        p.avoidAllergens p.avoidIngredientFlags p.crossContactOk
        p.tolerateFlags).safe ∧
    (runMultiAllergyReport items p).safeByAllergy =
      p.avoidAllergens.map (fun allergen =>
        (allergen,
          (filterByDietaryAndAllergies items p.dietaryPreferences [allergen]
            p.avoidIngredientFlags p.crossContactOk p.tolerateFlags).safe)) ∧
    (runMultiAllergyReport items p).safeByAllergy.map Prod.fst =
      p.avoidAllergens :=
  ⟨rfl, rfl, by
    rw [runMultiAllergyReport]
    simp only [List.map_map]
    have hmap : ∀ l : List String, List.map (Prod.fst ∘ (fun allergen =>
        (allergen,
          (filterByDietaryAndAllergies items p.dietaryPreferences [allergen]
            p.avoidIngredientFlags p.crossContactOk p.tolerateFlags).safe)))
        l = l := by
      intro l
      induction l with
      | nil => rfl
      | cons a rest ih =>
        simp only [List.map_cons, Function.comp_apply]
        rw [ih]
    exact hmap _⟩
